import Mathlib

/-!
Verification of the koalas excerpt (package bootstrap in
`databricks/koalas/__init__.py` and the CSV read/write contract exercised by
`databricks/koalas/tests/test_csv.py`) against its natural-language
specification.

The bootstrap functions `assert_pyspark_version` and `_auto_patch` are embedded
directly from `src/databricks/koalas/__init__.py`.  The CSV reader/writer
(`read_csv`, `to_csv` in `databricks/koalas/namespace.py` / `missing`) is not
part of the excerpt, so those operations are modelled from the specification,
with the error messages and observable behaviours pinned by the test module
`src/databricks/koalas/tests/test_csv.py`.
-/

namespace Koalas

/-! ## Package bootstrap (`src/databricks/koalas/__init__.py`) -/

/-- Python string comparison `s < t` on a pair of character lists:
lexicographic by code point. -/
def charListLt : List Char → List Char → Bool
  | [], [] => false
  | [], _ :: _ => true
  | _ :: _, [] => false
  | a :: as, b :: bs => if a < b then true else if b < a then false else charListLt as bs

/-- Python string comparison `s < t`: lexicographic by code point. -/
def pyStrLt (s t : String) : Bool := charListLt s.data t.data

/-- Python `str.lower`, restricted to ASCII as in the source's uses. -/
def pyLower (s : String) : String := String.mk (s.data.map Char.toLower)

/-- Outcome of running `assert_pyspark_version`: either an `ImportError` is
raised, or the function returns normally, having possibly logged a warning. -/
inductive ImportOutcome where
  | importError (msg : String)
  | ok (warned : Bool)
deriving Repr, DecidableEq

/-- Embedding of `assert_pyspark_version` from `__init__.py`.

The environment is abstracted as `pyspark : Option (Option String)`:
* `none` — `import pyspark` raises `ImportError`;
* `some none` — pyspark is importable but its `__version__` attribute is `None`;
* `some (some v)` — pyspark is importable with version string `v`.

The source raises `ImportError` exactly in the first case; otherwise it logs a
warning when the version is `None` or compares (Python string comparison, i.e.
lexicographically by code point) below `'2.4'`, and returns normally. -/
def assert_pyspark_version (pyspark : Option (Option String)) : ImportOutcome :=
  match pyspark with
  | none =>
    ImportOutcome.importError
      ("Unable to import pyspark - consider doing a pip install with [spark] " ++
        "extra to install pyspark with pip")
  | some pyspark_ver =>
    match pyspark_ver with
    | none => ImportOutcome.ok true
    | some v => ImportOutcome.ok (pyStrLt v "2.4")

/-- The pyspark `DataFrame` class, abstracted as a record of the one attribute
`_auto_patch` may add.  `to_koalas = none` means the method is absent. -/
structure SparkDataFrameClass where
  to_koalas : Option String
deriving Repr, DecidableEq

/-- Embedding of the autopatch step of `_auto_patch` from `__init__.py`:
`x = os.getenv("SPARK_KOALAS_AUTOPATCH", "true")`, and the `to_koalas` method
is assigned onto `pyspark.sql.dataframe.DataFrame` when
`x.lower() in ("true", "1", "enabled")`.  (The usage-logger attachment that
precedes it only logs and never touches the class.)  `env` is the value of the
`SPARK_KOALAS_AUTOPATCH` environment variable, `none` when unset. -/
def auto_patch (env : Option String) (cls : SparkDataFrameClass) : SparkDataFrameClass :=
  if pyLower (env.getD "true") = "true" ∨ pyLower (env.getD "true") = "1" ∨
      pyLower (env.getD "true") = "enabled" then
    { cls with to_koalas := some "DataFrame.to_koalas" }
  else
    cls

/-! ## CSV data model

The CSV reader/writer implementation (`read_csv`, `to_csv`) is not part of the
excerpt — only its test module is — so the operations below are modelled from
the specification (§3, §4, §6, §7 of `spec.md`), with the validation order and
the error messages pinned by `tests/test_csv.py`. -/

/-- A cell of a dataframe; `none` is a null/NaN value. -/
abbrev Cell := Option String

/-- A dataframe row. -/
abbrev Row := List Cell

/-- A CSV file, abstracted as its lines, each already split into raw fields. -/
abbrev CsvFile := List (List String)

/-- A dataframe: column names plus rows of cells.  The row index is kept
outside this structure (reads produce the default positional index; writes
take the index as a separate argument where it matters). -/
structure DataFrame where
  cols : List String
  rows : List Row
deriving Repr, DecidableEq

/-- The empty dataframe (`createDataFrame([], StructType())`): no columns and
no rows. -/
def DataFrame.empty : DataFrame := ⟨[], []⟩

/-- The `header` argument of `read_csv`: `'infer'`, `0`, `None`, or any other
value (carried as its string rendering). -/
inductive HeaderArg where
  | infer
  | zero
  | noHeader
  | other (s : String)
deriving Repr, DecidableEq

/-- The `names` argument of `read_csv`: a list of column names, or a single
engine-schema (Spark SQL DDL) string declaring names and types. -/
inductive NamesArg where
  | list (ns : List String)
  | ddl (s : String)
deriving Repr, DecidableEq

/-- The `usecols` argument of `read_csv`: all-integer positions, all-string
names, or a mixed list (carried as its string rendering), which is rejected. -/
inductive UsecolsArg where
  | ints (l : List Nat)
  | strs (l : List String)
  | mixed (txt : String)
deriving Repr, DecidableEq

/-- The `comment` argument of `read_csv`: a string, or a non-string Python
value (carried as its string rendering). -/
inductive CommentArg where
  | str (s : String)
  | nonStr (txt : String)
deriving Repr, DecidableEq

/-- Convert a raw field to a cell: the engine's `nullValue` representation
reads back as null. -/
def toCell (nullValue s : String) : Cell :=
  if s = nullValue then none else some s

/-- Normalize a raw line to a row of exactly `n` cells: missing fields become
null (the engine pads a short line), extra fields are dropped. -/
def normalizeRow (nullValue : String) : Nat → List String → Row
  | 0, _ => []
  | n + 1, [] => none :: normalizeRow nullValue n []
  | n + 1, s :: ss => toCell nullValue s :: normalizeRow nullValue n ss

/-- A raw line is a comment line when its first field starts with the comment
character. -/
def rowIsComment (c : Char) (row : List String) : Bool :=
  match (row.headD "").data with
  | [] => false
  | d :: _ => d = c

/-- Drop comment lines when a (validated, length-1) comment marker is given. -/
def filterComment (comment : Option CommentArg) (f : CsvFile) : CsvFile :=
  match comment with
  | some (CommentArg.str s) =>
    match s.data with
    | [c] => f.filter (fun row => !(rowIsComment c row))
    | _ => f
  | _ => f

/-- Whether `usecols` is the empty selection (Python `len(usecols) > 0` fails). -/
def emptyUsecols : UsecolsArg → Bool
  | UsecolsArg.ints l => l.isEmpty
  | UsecolsArg.strs l => l.isEmpty
  | UsecolsArg.mixed _ => false

/-- Header resolution: `'infer'` means row 0 unless explicit names are given;
row 0 and `None` select header/no-header; anything else is rejected.  Returns
whether the first line of the file is a header row. -/
def resolveHeader (header : HeaderArg) (hasNames : Bool) : Except String Bool :=
  match header with
  | HeaderArg.infer => Except.ok (!hasNames)
  | HeaderArg.zero => Except.ok true
  | HeaderArg.noHeader => Except.ok false
  | HeaderArg.other s => Except.error ("Unknown header argument " ++ s)

/-- Comment-marker validation: only a length-1 string is accepted. -/
def checkComment (comment : Option CommentArg) : Except String Unit :=
  match comment with
  | none => Except.ok ()
  | some (CommentArg.str s) =>
    if s.length = 1 then Except.ok ()
    else Except.error "Only length-1 comment characters supported"
  | some (CommentArg.nonStr _) =>
    Except.error "Only length-1 comment characters supported"

/-- Split a DDL schema string at commas. -/
def splitOnComma : List Char → List (List Char)
  | [] => [[]]
  | c :: cs =>
    if c = ',' then [] :: splitOnComma cs
    else
      match splitOnComma cs with
      | [] => [[c]]
      | g :: gs => (c :: g) :: gs

/-- The column name declared by one DDL schema field: the first
space-delimited token. -/
def ddlFieldName (cs : List Char) : String :=
  String.mk ((cs.dropWhile (fun c => c == ' ')).takeWhile (fun c => !(c == ' ')))

/-- The column names declared by a Spark SQL DDL schema string, e.g.
`"A string, B long"` declares `["A", "B"]`. -/
def ddlNames (s : String) : List String :=
  (splitOnComma s.data).map ddlFieldName

/-- The base frame read from a (comment-filtered) file: with a header row, the
first line gives the column names and the detected column count; without one,
columns are numbered `0, 1, …` with the count detected from the first line. -/
def inferFrame (f : CsvFile) (hasHeaderRow : Bool) (nullValue : String) : DataFrame :=
  if hasHeaderRow then
    let cols := f.headD []
    ⟨cols, f.tail.map (normalizeRow nullValue cols.length)⟩
  else
    let n := (f.headD []).length
    ⟨(List.range n).map toString, f.map (normalizeRow nullValue n)⟩

/-- The `names` stage: no names infers the frame; a DDL string sets the schema
directly (names and count, no further validation); an explicit list must be
duplicate-free and match the detected column count, and then renames the
detected columns. -/
def applyNames (names : Option NamesArg) (hasHeaderRow : Bool) (f : CsvFile)
    (nullValue : String) : Except String DataFrame :=
  match names with
  | none => Except.ok (inferFrame f hasHeaderRow nullValue)
  | some (NamesArg.ddl s) =>
    let ns := ddlNames s
    let dataRows := if hasHeaderRow then f.tail else f
    Except.ok ⟨ns, dataRows.map (normalizeRow nullValue ns.length)⟩
  | some (NamesArg.list ns) =>
    if ¬ List.Nodup ns then Except.error "Found non-unique column index"
    else if ns.length ≠ (f.headD []).length then
      Except.error ("Names do not match the number of columns: " ++ toString ns.length)
    else
      let dataRows := if hasHeaderRow then f.tail else f
      Except.ok ⟨ns, dataRows.map (normalizeRow nullValue (f.headD []).length)⟩

/-- The `usecols` stage: integer positions or string names select existing
columns, kept in file order with duplicates collapsed; references to columns
that do not exist are collected and reported; a selection that keeps no
columns yields the empty dataframe; a mixed list is rejected. -/
def selectUsecols (usecols : Option UsecolsArg) (df : DataFrame) : Except String DataFrame :=
  match usecols with
  | none => Except.ok df
  | some (UsecolsArg.mixed _) =>
    Except.error ("'usecols' must either be list-like of all strings, all unicode, " ++
      "all integers or a callable.")
  | some (UsecolsArg.ints l) =>
    let missing := l.filter (fun i => decide (df.cols.length ≤ i))
    if missing.isEmpty then
      let keep := (List.range df.cols.length).filter (fun i => l.contains i)
      if keep.isEmpty then Except.ok DataFrame.empty
      else
        Except.ok ⟨keep.map (fun i => df.cols.getD i ""),
          df.rows.map (fun r => keep.map (fun i => r.getD i none))⟩
    else
      Except.error ("Usecols do not match columns, columns expected but not found: [" ++
        String.intercalate ", " (missing.map toString) ++ "]")
  | some (UsecolsArg.strs l) =>
    let missing := l.filter (fun s => !(df.cols.contains s))
    if missing.isEmpty then
      let keep := (List.range df.cols.length).filter (fun i => l.contains (df.cols.getD i ""))
      if keep.isEmpty then Except.ok DataFrame.empty
      else
        Except.ok ⟨keep.map (fun i => df.cols.getD i ""),
          df.rows.map (fun r => keep.map (fun i => r.getD i none))⟩
    else
      Except.error ("Usecols do not match columns, columns expected but not found: [" ++
        String.intercalate ", " missing ++ "]")

/-- Modelled from the spec: `databricks.koalas.namespace.read_csv` is not part
of the excerpt (only its tests are).  The pipeline follows spec §4/§6/§7 with
the order and messages pinned by `tests/test_csv.py`: the unsupported legacy
options `mangle_dupe_cols`/`parse_dates` fail fast before anything else; an
empty `usecols` selection returns the empty dataframe without reading the
file; then the header argument, the comment marker, the path, the `names`
argument and the `usecols` selection are processed in that order.  `file` is
`none` when the path does not exist; `nullValue` is the engine reader's
null-representation option (default `""`). -/
def read_csv (file : Option CsvFile) (header : HeaderArg) (names : Option NamesArg)
    (usecols : Option UsecolsArg) (mangle_dupe_cols : Bool) (parse_dates : Bool)
    (comment : Option CommentArg) (nullValue : String) : Except String DataFrame :=
  if mangle_dupe_cols = false then
    Except.error "mangle_dupe_cols can only be `True`: False"
  else if parse_dates = true then
    Except.error "parse_dates can only be `False`: True"
  else if (match usecols with | some u => emptyUsecols u | none => false) then
    Except.ok DataFrame.empty
  else
    match resolveHeader header names.isSome with
    | Except.error e => Except.error e
    | Except.ok hasHeaderRow =>
      match checkComment comment with
      | Except.error e => Except.error e
      | Except.ok _ =>
        match file with
        | none => Except.error "Path does not exist"
        | some f =>
          match applyNames names hasHeaderRow (filterComment comment f) nullValue with
          | Except.error e => Except.error e
          | Except.ok df => selectUsecols usecols df

/-! ## Reference single-machine library (pandas) model

A second rendering of the CSV read/write contract, following the spec's words
about the reference library, to be compared with the koalas-side model. -/

/-- Modelled from the spec: the reference library parses an empty field as a
missing value (NaN). -/
def pandasCell (s : String) : Cell :=
  if s = "" then none else some s

/-- Modelled from the spec: the reference library pads a short line with
missing values up to the column count and ignores fields beyond it. -/
def pandasPadRow : List String → Nat → Row
  | _, 0 => []
  | [], n + 1 => List.replicate (n + 1) none
  | s :: ss, n + 1 => pandasCell s :: pandasPadRow ss n

/-- Whether a `usecols` selection keeps the column at position `i` named `c`. -/
def pandasSelMatches (u : UsecolsArg) (i : Nat) (c : String) : Bool :=
  match u with
  | UsecolsArg.ints l => l.contains i
  | UsecolsArg.strs l => l.contains c
  | UsecolsArg.mixed _ => false

/-- The positions the reference library keeps for a `usecols` selection:
walked over the columns in file order, so duplicates in the selection are
collapsed and the selection's own order is irrelevant. -/
def pandasKeep (u : UsecolsArg) : Nat → List String → List Nat
  | _, [] => []
  | i, c :: cs =>
    if pandasSelMatches u i c then i :: pandasKeep u (i + 1) cs
    else pandasKeep u (i + 1) cs

/-- The selection entries that reference no existing column. -/
def pandasMissing (u : UsecolsArg) (cols : List String) : List String :=
  match u with
  | UsecolsArg.ints l => (l.filter (fun i => decide (cols.length ≤ i))).map toString
  | UsecolsArg.strs l => l.filter (fun s => !(cols.contains s))
  | UsecolsArg.mixed _ => []

/-- Modelled from the spec: the reference library's `usecols` handling — a
mixed list is rejected, unknown references are reported, the kept columns are
projected in file order, and a selection keeping no columns yields an empty
frame with no rows (the parser skips every line when no column is used). -/
def pandasSelect (usecols : Option UsecolsArg) (df : DataFrame) : Except String DataFrame :=
  match usecols with
  | none => Except.ok df
  | some (UsecolsArg.mixed _) =>
    Except.error ("'usecols' must either be list-like of all strings, all unicode, " ++
      "all integers or a callable.")
  | some u =>
    let missing := pandasMissing u df.cols
    if missing.isEmpty then
      let keep := pandasKeep u 0 df.cols
      if keep.isEmpty then Except.ok DataFrame.empty
      else
        Except.ok ⟨keep.map (fun i => df.cols.getD i ""),
          df.rows.map (fun r => keep.map (fun i => r.getD i none))⟩
    else
      Except.error ("Usecols do not match columns, columns expected but not found: [" ++
        String.intercalate ", " missing ++ "]")

/-- Modelled from the spec: `pandas.read_csv`, the reference single-machine
library call the tests compare against.  Header row inference, explicit
(duplicate-free) name lists, and `usecols` selection per spec §6; restricted
to the argument combinations the claims exercise. -/
def pandas_read_csv (f : CsvFile) (header : HeaderArg) (names : Option (List String))
    (usecols : Option UsecolsArg) : Except String DataFrame :=
  match header with
  | HeaderArg.other _ => Except.error "invalid header"
  | _ =>
    let headerRow :=
      match header with
      | HeaderArg.infer => names.isNone
      | HeaderArg.zero => true
      | _ => false
    match names with
    | some ns =>
      if ¬ List.Nodup ns then Except.error "Duplicate names are not allowed."
      else
        let dataRows := if headerRow then f.tail else f
        pandasSelect usecols ⟨ns, dataRows.map (fun r => pandasPadRow r ns.length)⟩
    | none =>
      if headerRow then
        let cols := f.headD []
        pandasSelect usecols ⟨cols, f.tail.map (fun r => pandasPadRow r cols.length)⟩
      else
        let n := (f.headD []).length
        pandasSelect usecols ⟨(List.range n).map toString, f.map (fun r => pandasPadRow r n)⟩

/-! ## CSV write model -/

/-- Render a cell: null prints as the `na_rep` representation. -/
def renderCell (narep : String) (c : Cell) : String :=
  match c with
  | none => narep
  | some s => s

/-- Render one CSV line from its fields. -/
def renderLine (sep : String) (cells : List String) : String :=
  String.intercalate sep cells

/-- Render a CSV file: optional header line, then the given rows, each line
terminated by a newline. -/
def renderFile (sep narep : String) (header : Bool) (cols : List String)
    (rows : List Row) : String :=
  String.join
    (((if header then [renderLine sep cols] else []) ++
        rows.map (fun r => renderLine sep (r.map (renderCell narep)))).map (fun l => l ++ "\n"))

/-- Modelled from the spec: koalas `DataFrame.to_csv` in its single-buffer
form — it never writes the row index; supports header suppression, a custom
separator and a custom null-value representation (defaults `","`, `true`,
`""`). -/
def to_csv (df : DataFrame) (sep narep : String) (header : Bool) : String :=
  renderFile sep narep header df.cols df.rows

/-- Contiguous split of the rows into `n` parts (the engine's partitioning of
the output; `n = 1` keeps everything in one part). -/
def partitionRows : Nat → List Row → List (List Row)
  | 0, _ => []
  | 1, rows => [rows]
  | n + 2, rows =>
    rows.take ((rows.length + n + 1) / (n + 2)) ::
      partitionRows (n + 1) (rows.drop ((rows.length + n + 1) / (n + 2)))

/-- Modelled from the spec: koalas `DataFrame.to_csv` in its multi-file path
form — `num_files` part files, each carrying its own header line when
`header` is set, none of them carrying the row index. -/
def to_csv_files (df : DataFrame) (sep narep : String) (header : Bool)
    (numFiles : Nat) : List String :=
  (partitionRows numFiles df.rows).map (fun part => renderFile sep narep header df.cols part)

/-- Modelled from the spec: the reference library's `DataFrame.to_csv` with an
explicit `index` flag — with `index` set, the row-index labels are written as
an extra first field of every line (with an empty header field); with
`index=False` they are omitted. -/
def pandas_to_csv (df : DataFrame) (idx : List String) (sep narep : String)
    (header index : Bool) : String :=
  let cols := if index then "" :: df.cols else df.cols
  let rows :=
    if index then (idx.zip df.rows).map (fun p => p.1 :: p.2.map (renderCell narep))
    else df.rows.map (fun r => r.map (renderCell narep))
  String.join
    (((if header then [renderLine sep cols] else []) ++ rows.map (renderLine sep)).map
      (fun l => l ++ "\n"))

/-- The written CSV file, as the reader will see it: a header line of the
column names, then one line per row with nulls rendered as `narep`.  This is
`to_csv df sep narep true` before line rendering. -/
def to_csv_rows (df : DataFrame) (narep : String) : CsvFile :=
  df.cols :: df.rows.map (fun r => r.map (renderCell narep))

/-- A comment argument the validation must reject: a string whose length is
not exactly 1, or any non-string value. -/
def badComment : CommentArg → Prop
  | CommentArg.str s => s.length ≠ 1
  | CommentArg.nonStr _ => True

instance : DecidablePred badComment := fun c =>
  match c with
  | CommentArg.str s => inferInstanceAs (Decidable (s.length ≠ 1))
  | CommentArg.nonStr _ => inferInstanceAs (Decidable True)

end Koalas

namespace Koalas

/-- C10: `assert_pyspark_version` raises `ImportError` exactly when pyspark
cannot be imported; when pyspark is importable but its version is missing or
lexicographically below `'2.4'` the function only warns and returns, and a
version not below `'2.4'` returns without warning — an old version never aborts
the import. -/
theorem assert_pyspark_version_spec :
    (∀ p : Option (Option String),
      (∃ m, assert_pyspark_version p = ImportOutcome.importError m) ↔ p = none) ∧
    (∀ v : Option String,
      (v = none ∨ ∃ s, v = some s ∧ pyStrLt s "2.4" = true) →
        assert_pyspark_version (some v) = ImportOutcome.ok true) ∧
    (∀ s : String, pyStrLt s "2.4" = false →
        assert_pyspark_version (some (some s)) = ImportOutcome.ok false) := by
  refine ⟨?_, ?_, ?_⟩
  · intro p
    constructor
    · intro ⟨m, hm⟩
      cases p with
      | none => rfl
      | some v =>
        cases v with
        | none => simp [assert_pyspark_version] at hm
        | some s => simp [assert_pyspark_version] at hm
    · intro hp
      subst hp
      exact ⟨_, rfl⟩
  · intro v hv
    cases hv with
    | inl h => subst h; rfl
    | inr h =>
      obtain ⟨s, hs, hlt⟩ := h
      subst hs
      simp [assert_pyspark_version, hlt]
  · intro s hs
    simp [assert_pyspark_version, hs]

/-- Witness for C10 at concrete inputs: pyspark missing, version `None`,
version `"2.3"` (below `'2.4'`), and version `"2.4"` (not below). -/
theorem assert_pyspark_version_spec_witness :
    assert_pyspark_version none =
      ImportOutcome.importError
        ("Unable to import pyspark - consider doing a pip install with [spark] " ++
          "extra to install pyspark with pip") ∧
    assert_pyspark_version (some none) = ImportOutcome.ok true ∧
    assert_pyspark_version (some (some "2.3")) = ImportOutcome.ok true ∧
    assert_pyspark_version (some (some "2.4")) = ImportOutcome.ok false := by
  refine ⟨?_, ?_, ?_, ?_⟩
  · rfl
  · exact assert_pyspark_version_spec.2.1 none (Or.inl rfl)
  · exact assert_pyspark_version_spec.2.1 (some "2.3") (Or.inr ⟨"2.3", rfl, by decide⟩)
  · exact assert_pyspark_version_spec.2.2 "2.4" (by decide)

/-- C8: starting from a class without the method, `auto_patch` injects
`to_koalas` onto the pyspark `DataFrame` class if and only if the
`SPARK_KOALAS_AUTOPATCH` value — taken as `"true"` when unset — lower-cases to
one of `"true"`, `"1"`, `"enabled"`; in particular patching is on by default
(unset environment variable). -/
theorem auto_patch_spec (env : Option String) (cls : SparkDataFrameClass)
    (h : cls.to_koalas = none) :
    ((auto_patch env cls).to_koalas ≠ none ↔
        pyLower (env.getD "true") ∈ (["true", "1", "enabled"] : List String)) ∧
    (auto_patch none cls).to_koalas ≠ none := by
  constructor
  · by_cases hc :
        pyLower (env.getD "true") = "true" ∨ pyLower (env.getD "true") = "1" ∨
          pyLower (env.getD "true") = "enabled"
    · rw [auto_patch, if_pos hc]
      simp only [List.mem_cons, List.not_mem_nil, or_false]
      exact ⟨fun _ => hc, fun _ => by simp⟩
    · rw [auto_patch, if_neg hc, h]
      simp only [List.mem_cons, List.not_mem_nil, or_false]
      exact ⟨fun hne => absurd rfl hne, fun hmem => absurd hmem hc⟩
  · rw [auto_patch, if_pos (Or.inl (by decide))]
    simp

/-- Witness for C8: with the variable unset the method is injected, and
`"false"` is not in the enabling set. -/
theorem auto_patch_spec_witness :
    ((auto_patch none ⟨none⟩).to_koalas ≠ none ↔
        pyLower ((none : Option String).getD "true") ∈
          (["true", "1", "enabled"] : List String)) ∧
    ((auto_patch (some "false") ⟨none⟩).to_koalas ≠ none ↔
        pyLower ((some "false").getD "true") ∈ (["true", "1", "enabled"] : List String)) ∧
    (auto_patch none ⟨none⟩).to_koalas ≠ none := by
  refine ⟨?_, ?_, ?_⟩
  · exact (auto_patch_spec none ⟨none⟩ rfl).1
  · exact (auto_patch_spec (some "false") ⟨none⟩ rfl).1
  · exact (auto_patch_spec (some "TRUE") ⟨none⟩ rfl).2

/-! ## CSV validation claims -/

/-- C4: passing a non-default value for an unsupported legacy option
(`mangle_dupe_cols=False` or `parse_dates=True`) raises the validation error
naming that option immediately — for every file argument, including `none`
(a path that does not exist), so the input path is never touched. -/
theorem read_csv_unsupported_options (file : Option CsvFile) (header : HeaderArg)
    (names : Option NamesArg) (usecols : Option UsecolsArg) (comment : Option CommentArg)
    (nullValue : String) :
    (∀ parse_dates : Bool,
      read_csv file header names usecols false parse_dates comment nullValue =
        Except.error "mangle_dupe_cols can only be `True`: False") ∧
    read_csv file header names usecols true true comment nullValue =
      Except.error "parse_dates can only be `False`: True" := by
  constructor
  · intro parse_dates
    rfl
  · rfl

/-- C3: a comment argument that is not a length-1 string — the empty string,
a longer string, or a non-string value — fails validation with the
length-1-comment error, for every file argument. -/
theorem read_csv_bad_comment (file : Option CsvFile) (c : CommentArg)
    (hc : badComment c) :
    read_csv file HeaderArg.infer none none true false (some c) "" =
      Except.error "Only length-1 comment characters supported" := by
  cases c with
  | str s =>
    have hs : s.length ≠ 1 := hc
    simp [read_csv, resolveHeader, checkComment, hs]
  | nonStr t => rfl

/-- Witness for C3 at the four rejected comment arguments the tests use:
`''`, `'##'`, `1` and `[1]`. -/
theorem read_csv_bad_comment_witness :
    read_csv (some [["name", "amount"], ["Alice", "100"]]) HeaderArg.infer none none true
        false (some (CommentArg.str "")) "" =
      Except.error "Only length-1 comment characters supported" ∧
    read_csv (some [["name", "amount"], ["Alice", "100"]]) HeaderArg.infer none none true
        false (some (CommentArg.str "##")) "" =
      Except.error "Only length-1 comment characters supported" ∧
    read_csv none HeaderArg.infer none none true false (some (CommentArg.nonStr "1")) "" =
      Except.error "Only length-1 comment characters supported" ∧
    read_csv none HeaderArg.infer none none true false (some (CommentArg.nonStr "[1]")) "" =
      Except.error "Only length-1 comment characters supported" := by
  refine ⟨?_, ?_, ?_, ?_⟩
  · exact read_csv_bad_comment _ (CommentArg.str "") (by decide)
  · exact read_csv_bad_comment _ (CommentArg.str "##") (by decide)
  · exact read_csv_bad_comment _ (CommentArg.nonStr "1") (by decide)
  · exact read_csv_bad_comment _ (CommentArg.nonStr "[1]") (by decide)

/-- C2: an explicit, duplicate-free column-name list whose length differs from
the column count detected in the file fails validation — whether the header is
inferred or given as the explicit row index 0 — with the error naming the
expected count (the length of the supplied list, which is how many columns the
caller expects the file to have). -/
theorem read_csv_names_length_mismatch (f : CsvFile) (ns : List String)
    (header : HeaderArg)
    (hh : header = HeaderArg.infer ∨ header = HeaderArg.zero)
    (hnd : List.Nodup ns)
    (hlen : ns.length ≠ (f.headD []).length) :
    read_csv (some f) header (some (NamesArg.list ns)) none true false none "" =
      Except.error ("Names do not match the number of columns: " ++ toString ns.length) := by
  have happ : ∀ hdr : Bool, applyNames (some (NamesArg.list ns)) hdr f "" =
      Except.error ("Names do not match the number of columns: " ++ toString ns.length) := by
    intro hdr
    simp only [applyNames]
    rw [if_neg (not_not_intro hnd), if_pos hlen]
  cases hh with
  | inl h =>
    subst h
    have hred : read_csv (some f) HeaderArg.infer (some (NamesArg.list ns)) none true false
        none "" =
        (match applyNames (some (NamesArg.list ns)) false f "" with
          | Except.error e => Except.error e
          | Except.ok df => Except.ok df) := rfl
    rw [hred, happ false]
  | inr h =>
    subst h
    have hred : read_csv (some f) HeaderArg.zero (some (NamesArg.list ns)) none true false
        none "" =
        (match applyNames (some (NamesArg.list ns)) true f "" with
          | Except.error e => Except.error e
          | Except.ok df => Except.ok df) := rfl
    rw [hred, happ true]

/-- Witness for C2: the two-column test file with the three-name list
`['n', 'a', 'b']`, under both header modes. -/
theorem read_csv_names_length_mismatch_witness :
    read_csv (some [["name", "amount"], ["Alice", "100"]]) HeaderArg.infer
        (some (NamesArg.list ["n", "a", "b"])) none true false none "" =
      Except.error ("Names do not match the number of columns: " ++
        toString (["n", "a", "b"] : List String).length) ∧
    read_csv (some [["name", "amount"], ["Alice", "100"]]) HeaderArg.zero
        (some (NamesArg.list ["n", "a", "b"])) none true false none "" =
      Except.error ("Names do not match the number of columns: " ++
        toString (["n", "a", "b"] : List String).length) := by
  constructor
  · exact read_csv_names_length_mismatch _ _ _ (Or.inl rfl) (by decide) (by decide)
  · exact read_csv_names_length_mismatch _ _ _ (Or.inr rfl) (by decide) (by decide)

/-- C5: a column-name list with duplicate entries fails with the
non-uniqueness error; a `usecols` selection referencing a column that does not
exist — an out-of-range position or an unknown name — fails with the error
listing the unknown references. -/
theorem read_csv_bad_names_and_usecols :
    (∀ (f : CsvFile) (ns : List String), ¬ List.Nodup ns →
      read_csv (some f) HeaderArg.infer (some (NamesArg.list ns)) none true false none "" =
        Except.error "Found non-unique column index") ∧
    (∀ (f : CsvFile) (l : List Nat),
      l.filter (fun i => decide ((f.headD []).length ≤ i)) ≠ [] →
      read_csv (some f) HeaderArg.infer none (some (UsecolsArg.ints l)) true false none "" =
        Except.error ("Usecols do not match columns, columns expected but not found: [" ++
          String.intercalate ", "
            ((l.filter (fun i => decide ((f.headD []).length ≤ i))).map toString) ++ "]")) ∧
    (∀ (f : CsvFile) (l : List String),
      l.filter (fun s => !((f.headD []).contains s)) ≠ [] →
      read_csv (some f) HeaderArg.infer none (some (UsecolsArg.strs l)) true false none "" =
        Except.error ("Usecols do not match columns, columns expected but not found: [" ++
          String.intercalate ", " (l.filter (fun s => !((f.headD []).contains s))) ++ "]")) := by
  refine ⟨?_, ?_, ?_⟩
  · intro f ns hns
    have hred : read_csv (some f) HeaderArg.infer (some (NamesArg.list ns)) none true false
        none "" =
        (match applyNames (some (NamesArg.list ns)) false f "" with
          | Except.error e => Except.error e
          | Except.ok df => Except.ok df) := rfl
    rw [hred]
    have happ : applyNames (some (NamesArg.list ns)) false f "" =
        Except.error "Found non-unique column index" := by
      simp only [applyNames]
      rw [if_pos hns]
    rw [happ]
  · intro f l hl
    cases l with
    | nil => exact absurd rfl hl
    | cons a as =>
      have hred : read_csv (some f) HeaderArg.infer none
          (some (UsecolsArg.ints (a :: as))) true false none "" =
          selectUsecols (some (UsecolsArg.ints (a :: as))) (inferFrame f true "") := rfl
      rw [hred]
      simp only [selectUsecols]
      rw [if_neg (fun hemp =>
        hl (List.isEmpty_iff.mp
          (show ((a :: as).filter
              (fun i => decide ((inferFrame f true "").cols.length ≤ i))).isEmpty = true
            from hemp)))]
      rfl
  · intro f l hl
    cases l with
    | nil => exact absurd rfl hl
    | cons a as =>
      have hred : read_csv (some f) HeaderArg.infer none
          (some (UsecolsArg.strs (a :: as))) true false none "" =
          selectUsecols (some (UsecolsArg.strs (a :: as))) (inferFrame f true "") := rfl
      rw [hred]
      simp only [selectUsecols]
      rw [if_neg (fun hemp =>
        hl (List.isEmpty_iff.mp
          (show ((a :: as).filter
              (fun s => !((inferFrame f true "").cols.contains s))).isEmpty = true
            from hemp)))]
      rfl

/-- Witness for C5 at the tests' inputs: duplicate names `['n', 'n']`, the
out-of-range position list `[1, 3]` and the unknown name list
`['amount', 'col']`, all on the two-column test file. -/
theorem read_csv_bad_names_and_usecols_witness :
    read_csv (some [["name", "amount"], ["Alice", "100"]]) HeaderArg.infer
        (some (NamesArg.list ["n", "n"])) none true false none "" =
      Except.error "Found non-unique column index" ∧
    read_csv (some [["name", "amount"], ["Alice", "100"]]) HeaderArg.infer none
        (some (UsecolsArg.ints [1, 3])) true false none "" =
      Except.error ("Usecols do not match columns, columns expected but not found: [" ++
        String.intercalate ", "
          (([1, 3].filter (fun i =>
            decide ((([["name", "amount"], ["Alice", "100"]] : CsvFile).headD []).length ≤ i))).map
              toString) ++ "]") ∧
    read_csv (some [["name", "amount"], ["Alice", "100"]]) HeaderArg.infer none
        (some (UsecolsArg.strs ["amount", "col"])) true false none "" =
      Except.error ("Usecols do not match columns, columns expected but not found: [" ++
        String.intercalate ", "
          (["amount", "col"].filter (fun s =>
            !((([["name", "amount"], ["Alice", "100"]] : CsvFile).headD []).contains s))) ++
          "]") := by
  refine ⟨?_, ?_, ?_⟩
  · exact read_csv_bad_names_and_usecols.1 _ ["n", "n"] (by decide)
  · exact read_csv_bad_names_and_usecols.2.1 _ [1, 3] (by decide)
  · exact read_csv_bad_names_and_usecols.2.2 _ ["amount", "col"] (by decide)

/-! ## Round-trip and write claims -/

theorem normalizeRow_render (narep : String) (r : Row)
    (hn : ∀ c ∈ r, c ≠ some narep) :
    normalizeRow narep r.length (r.map (renderCell narep)) = r := by
  induction r with
  | nil => rfl
  | cons c cs ih =>
    simp only [List.map_cons, List.length_cons, normalizeRow]
    congr 1
    · cases c with
      | none => simp [renderCell, toCell]
      | some s =>
        have hs : s ≠ narep := by
          intro h
          exact (hn (some s) (List.mem_cons_self _ _)) (by rw [h])
        simp [renderCell, toCell, hs]
    · exact ih (fun c hc => hn c (List.mem_cons_of_mem _ hc))

/-- C6: writing a dataframe to CSV with null representation `narep` and
reading the result back with the matching null representation reproduces the
original dataframe exactly, provided every row has the full column width and
no non-null cell collides with `narep`. -/
theorem to_csv_read_csv_roundtrip (df : DataFrame) (narep : String)
    (hw : ∀ r ∈ df.rows, r.length = df.cols.length)
    (hn : ∀ r ∈ df.rows, ∀ c ∈ r, c ≠ some narep) :
    read_csv (some (to_csv_rows df narep)) HeaderArg.infer none none true false none narep =
      Except.ok df := by
  have hred : read_csv (some (to_csv_rows df narep)) HeaderArg.infer none none true false
      none narep = Except.ok (inferFrame (to_csv_rows df narep) true narep) := rfl
  have h2 : inferFrame (to_csv_rows df narep) true narep =
      (⟨df.cols, (df.rows.map (fun r => r.map (renderCell narep))).map
        (normalizeRow narep df.cols.length)⟩ : DataFrame) := rfl
  have h3 : (df.rows.map (fun r => r.map (renderCell narep))).map
      (normalizeRow narep df.cols.length) = df.rows := by
    rw [List.map_map]
    have hpt : ∀ r ∈ df.rows,
        (normalizeRow narep df.cols.length ∘ fun r => r.map (renderCell narep)) r = id r := by
      intro r hr
      show normalizeRow narep df.cols.length (r.map (renderCell narep)) = r
      rw [← hw r hr]
      exact normalizeRow_render narep r (hn r hr)
    rw [List.map_congr_left hpt, List.map_id]
  rw [hred, h2, h3]

/-- Witness for C6: a two-column frame with an integer-like, a float-like and
null cells, null representation `'null'`. -/
theorem to_csv_read_csv_roundtrip_witness :
    read_csv (some (to_csv_rows ⟨["a", "b"],
        [[some "1", some "one"], [none, some "two"], [some "3.5", none]]⟩ "null"))
      HeaderArg.infer none none true false none "null" =
      Except.ok ⟨["a", "b"],
        [[some "1", some "one"], [none, some "two"], [some "3.5", none]]⟩ :=
  to_csv_read_csv_roundtrip
    ⟨["a", "b"], [[some "1", some "one"], [none, some "two"], [some "3.5", none]]⟩
    "null" (by decide) (by decide)

/-- C7: `to_csv` with default arguments equals the reference library's
`to_csv` with `index=False` — whatever row-index labels the frame carries are
omitted — and the multi-file path form with one output file, under header
suppression, a custom separator or a custom null representation, writes
exactly the reference library's `index=False` output. -/
theorem to_csv_omits_index (df : DataFrame) (idx : List String) (sep narep : String)
    (header : Bool) :
    to_csv df "," "" true = pandas_to_csv df idx "," "" true false ∧
    to_csv_files df sep narep header 1 = [pandas_to_csv df idx sep narep header false] := by
  constructor
  · simp [to_csv, pandas_to_csv, renderFile, List.map_map]
    rfl
  · simp [to_csv_files, partitionRows, renderFile, pandas_to_csv, List.map_map]
    rfl

/-! ## Equivalence with the reference reader -/

theorem pandasPadRow_nil_eq : ∀ n, pandasPadRow [] n = List.replicate n none
  | 0 => rfl
  | _ + 1 => rfl

theorem normalizeRow_empty_eq_pandasPadRow (r : List String) :
    ∀ n, normalizeRow "" n r = pandasPadRow r n := by
  induction r with
  | nil =>
    intro n
    induction n with
    | zero => rfl
    | succ n ih =>
      rw [pandasPadRow_nil_eq, List.replicate_succ, ← pandasPadRow_nil_eq]
      show none :: normalizeRow "" n [] = none :: pandasPadRow [] n
      rw [ih]
  | cons s ss ih =>
    intro n
    cases n with
    | zero => rfl
    | succ n =>
      show toCell "" s :: normalizeRow "" n ss = pandasCell s :: pandasPadRow ss n
      rw [ih]
      rfl

theorem pandasKeep_spec (u : UsecolsArg) (cols : List String) :
    ∀ i : Nat,
      pandasKeep u i cols =
        ((List.range cols.length).filter
          (fun j => pandasSelMatches u (i + j) (cols.getD j ""))).map (fun j => i + j) := by
  induction cols with
  | nil => intro i; rfl
  | cons c cs ih =>
    intro i
    have hfun : ((fun j => i + j) ∘ Nat.succ) = (fun j : Nat => i + 1 + j) := by
      funext j
      simp only [Function.comp_apply]
      omega
    have hpred : ((fun j => pandasSelMatches u (i + j) ((c :: cs).getD j "")) ∘ Nat.succ)
        = (fun j => pandasSelMatches u (i + 1 + j) (cs.getD j "")) := by
      funext j
      simp only [Function.comp_apply, List.getD_cons_succ]
      have hj : i + Nat.succ j = i + 1 + j := by omega
      rw [hj]
    simp only [pandasKeep, List.length_cons, List.range_succ_eq_map, List.filter_cons,
      List.getD_cons_zero, Nat.add_zero]
    rw [List.filter_map]
    by_cases h : pandasSelMatches u i c = true
    · rw [if_pos h, if_pos h]
      simp only [List.map_cons, List.map_map, Nat.add_zero]
      congr 1
      rw [hfun, hpred, ih (i + 1)]
    · rw [if_neg h, if_neg h]
      simp only [List.map_map]
      rw [hfun, hpred, ih (i + 1)]

theorem pandasKeep_zero (u : UsecolsArg) (cols : List String) :
    pandasKeep u 0 cols =
      (List.range cols.length).filter (fun j => pandasSelMatches u j (cols.getD j "")) := by
  rw [pandasKeep_spec]
  simp [Nat.zero_add]

theorem selectUsecols_eq_pandasSelect (u : Option UsecolsArg) (df : DataFrame) :
    selectUsecols u df = pandasSelect u df := by
  match u with
  | none => rfl
  | some (UsecolsArg.mixed t) => rfl
  | some (UsecolsArg.ints l) =>
    simp only [selectUsecols, pandasSelect, pandasMissing]
    have hm : ((l.filter (fun i => decide (df.cols.length ≤ i))).map toString).isEmpty =
        (l.filter (fun i => decide (df.cols.length ≤ i))).isEmpty := by
      cases l.filter (fun i => decide (df.cols.length ≤ i)) <;> rfl
    rw [hm, pandasKeep_zero]
    simp only [pandasSelMatches]
  | some (UsecolsArg.strs l) =>
    simp only [selectUsecols, pandasSelect, pandasMissing]
    rw [pandasKeep_zero]
    simp only [pandasSelMatches]

theorem inferFrame_eq_pandas (f : CsvFile) :
    inferFrame f true "" =
      (⟨f.headD [], f.tail.map (fun r => pandasPadRow r (f.headD []).length)⟩ : DataFrame) := by
  show (⟨f.headD [], f.tail.map (normalizeRow "" (f.headD []).length)⟩ : DataFrame) = _
  have hrows : f.tail.map (normalizeRow "" (f.headD []).length) =
      f.tail.map (fun r => pandasPadRow r (f.headD []).length) :=
    List.map_congr_left (fun r _ => normalizeRow_empty_eq_pandasPadRow r _)
  rw [hrows]

/-- C1: for every CSV input file, `read_csv` with default arguments and with
any `usecols` selection — by position or by name, including the empty
selection and selections containing duplicates — agrees exactly with the
reference library's `read_csv` for the equivalent call: same column names,
same column values, same row count (and the same rejection of invalid
selections). -/
theorem read_csv_matches_pandas (f : CsvFile) (u : Option UsecolsArg) :
    read_csv (some f) HeaderArg.infer none u true false none "" =
      pandas_read_csv f HeaderArg.infer none u := by
  have hpandas : pandas_read_csv f HeaderArg.infer none u =
      pandasSelect u
        ⟨f.headD [], f.tail.map (fun r => pandasPadRow r (f.headD []).length)⟩ := rfl
  cases u with
  | none =>
    have hL : read_csv (some f) HeaderArg.infer none none true false none "" =
        selectUsecols none (inferFrame f true "") := rfl
    rw [hL, hpandas, selectUsecols_eq_pandasSelect, inferFrame_eq_pandas]
  | some x =>
    cases x with
    | mixed t =>
      have hL : read_csv (some f) HeaderArg.infer none (some (UsecolsArg.mixed t)) true
          false none "" =
          selectUsecols (some (UsecolsArg.mixed t)) (inferFrame f true "") := rfl
      rw [hL, hpandas, selectUsecols_eq_pandasSelect, inferFrame_eq_pandas]
    | ints l =>
      cases l with
      | nil =>
        have hL : read_csv (some f) HeaderArg.infer none (some (UsecolsArg.ints [])) true
            false none "" = Except.ok DataFrame.empty := rfl
        have hkeep : pandasKeep (UsecolsArg.ints []) 0 (f.headD []) = [] := by
          rw [pandasKeep_zero]
          refine List.filter_eq_nil_iff.mpr ?_
          intro a ha
          simp [pandasSelMatches]
        rw [hL, hpandas]
        simp at hkeep
        simp [pandasSelect, pandasMissing, hkeep]
      | cons a as =>
        have hL : read_csv (some f) HeaderArg.infer none
            (some (UsecolsArg.ints (a :: as))) true false none "" =
            selectUsecols (some (UsecolsArg.ints (a :: as))) (inferFrame f true "") := rfl
        rw [hL, hpandas, selectUsecols_eq_pandasSelect, inferFrame_eq_pandas]
    | strs l =>
      cases l with
      | nil =>
        have hL : read_csv (some f) HeaderArg.infer none (some (UsecolsArg.strs [])) true
            false none "" = Except.ok DataFrame.empty := rfl
        have hkeep : pandasKeep (UsecolsArg.strs []) 0 (f.headD []) = [] := by
          rw [pandasKeep_zero]
          refine List.filter_eq_nil_iff.mpr ?_
          intro a ha
          simp [pandasSelMatches]
        rw [hL, hpandas]
        simp at hkeep
        simp [pandasSelect, pandasMissing, hkeep]
      | cons a as =>
        have hL : read_csv (some f) HeaderArg.infer none
            (some (UsecolsArg.strs (a :: as))) true false none "" =
            selectUsecols (some (UsecolsArg.strs (a :: as))) (inferFrame f true "") := rfl
        rw [hL, hpandas, selectUsecols_eq_pandasSelect, inferFrame_eq_pandas]

/-- C9: `read_csv` with the `names` argument given as an engine-schema DDL
string agrees with the reference library's `read_csv` called with the
corresponding plain list of names, for every file whose lines do not exceed
the declared column count (and duplicate-free declared names). -/
theorem read_csv_ddl_matches_pandas (f : CsvFile) (s : String)
    (hnd : List.Nodup (ddlNames s))
    (_hw : ∀ r ∈ f, r.length ≤ (ddlNames s).length) :
    read_csv (some f) HeaderArg.infer (some (NamesArg.ddl s)) none true false none "" =
      pandas_read_csv f HeaderArg.infer (some (ddlNames s)) none := by
  have hL : read_csv (some f) HeaderArg.infer (some (NamesArg.ddl s)) none true false
      none "" =
      Except.ok ⟨ddlNames s, f.map (normalizeRow "" (ddlNames s).length)⟩ := rfl
  have hR : pandas_read_csv f HeaderArg.infer (some (ddlNames s)) none =
      (if ¬ List.Nodup (ddlNames s) then Except.error "Duplicate names are not allowed."
        else Except.ok ⟨ddlNames s, f.map (fun r => pandasPadRow r (ddlNames s).length)⟩) := rfl
  rw [hL, hR, if_neg (not_not_intro hnd)]
  have hrows : f.map (normalizeRow "" (ddlNames s).length) =
      f.map (fun r => pandasPadRow r (ddlNames s).length) :=
    List.map_congr_left (fun r _ => normalizeRow_empty_eq_pandasPadRow r _)
  rw [hrows]

/-- Witness for C9 at the tests' input: the ragged five-column file of
`csv_text_2` with the DDL schema `'A string, B string, C long, D long, E long'`. -/
theorem read_csv_ddl_matches_pandas_witness :
    read_csv (some [["A", "B"], ["item1", "1"], ["item2", "1", "2"],
        ["item3", "1", "2", "3", "4"], ["item4", "1"]])
      HeaderArg.infer (some (NamesArg.ddl "A string, B string, C long, D long, E long"))
      none true false none "" =
      pandas_read_csv [["A", "B"], ["item1", "1"], ["item2", "1", "2"],
        ["item3", "1", "2", "3", "4"], ["item4", "1"]]
      HeaderArg.infer (some (ddlNames "A string, B string, C long, D long, E long")) none :=
  read_csv_ddl_matches_pandas _ _ (by decide) (by decide)

end Koalas
